import Mathlib

set_option maxRecDepth 10000

/-!
Verification of the lane-racer RISC Zero verifier stack against its specification.

Shallow embedding of the Rust/Soroban sources:
* `contracts/interface/src/types.rs`   — receipt types and tagged hashing
* `contracts/risc0-router/src/lib.rs`  — selector→verifier registry and dispatch
* `contracts/groth16-verifier/src/types.rs` — seal codec
* `contracts/mock-verifier/src/lib.rs` — mock verifier
* `contracts/lane-racer/src/lib.rs`    — game contract consumer

Bytes are lists of naturals.  The host hash primitives `env.crypto().sha256`
and `env.crypto().keccak256` are platform functions, not code of this
repository; digest-construction functions therefore take the hash as an
explicit function parameter, so every theorem about preimage layout holds for
the actual hash functions in particular.  Contract storage is passed
explicitly (router: a map from selectors to optional entries; mock verifier:
the optional stored selector bytes).
-/

namespace LaneRacer

/-- Byte strings: each element is a byte value (0..255 in the source). -/
abbrev Bytes := List Nat

/-- Big-endian interpretation of a byte string as a natural number, used to
state the protocol constants of the spec as hex numerals. -/
def beBytesToNat (l : Bytes) : Nat :=
  l.foldl (fun acc b => acc * 256 + b) 0

/-- Error codes of `VerifierError` in `interface/src/types.rs`. -/
inductive VerifierError where
  | InvalidProof
  | MalformedPublicInputs
  | MalformedSeal
  | InvalidSelector
  | AlreadyInitialized
  | SelectorRemoved
  | SelectorInUse
  | SelectorUnknown
deriving DecidableEq, Repr

/-- System exit codes (`SystemExitCode` in `interface/src/types.rs`). -/
inductive SystemExitCode where
  | Halted
  | Paused
  | SystemSplit
deriving DecidableEq, Repr

/-- Numeric value of a system exit code (`Halted = 0, Paused = 1,
SystemSplit = 2`), as used by `self.exit_code.system as u8` in the digest. -/
def SystemExitCode.toByte : SystemExitCode → Nat
  | .Halted => 0
  | .Paused => 1
  | .SystemSplit => 2

/-- Exit code pair (`ExitCode` in `interface/src/types.rs`); `user` holds the
8 bytes of the `BytesN<8>` user exit code. -/
structure ExitCode where
  system : SystemExitCode
  user : Bytes
deriving DecidableEq, Repr

/-- Guest execution output (`Output` in `interface/src/types.rs`). -/
structure Output where
  journal_digest : Bytes
  assumptions_digest : Bytes
deriving DecidableEq, Repr

/-- Execution claim (`ReceiptClaim` in `interface/src/types.rs`). -/
structure ReceiptClaim where
  pre_state_digest : Bytes
  post_state_digest : Bytes
  exit_code : ExitCode
  input : Bytes
  output : Bytes
deriving DecidableEq, Repr

/-- Proof package (`Receipt` in `interface/src/types.rs`).  The field `seal`
must be quoted because `seal` is a Lean keyword. -/
structure Receipt where
  «seal» : Bytes
  claim_digest : Bytes
deriving DecidableEq, Repr

/-- Pre-computed SHA-256("risc0.Output") tag bytes, copied from
`Output::TAG_DIGEST` in `interface/src/types.rs`. -/
def Output.TAG_DIGEST : Bytes :=
  [0x77, 0xea, 0xfe, 0xb3, 0x66, 0xa7, 0x8b, 0x47, 0x74, 0x7d, 0xe0, 0xd7, 0xbb, 0x17, 0x62,
   0x84, 0x08, 0x5f, 0xf5, 0x56, 0x48, 0x87, 0x00, 0x9a, 0x5b, 0xe6, 0x3d, 0xa3, 0x2d, 0x35,
   0x59, 0xd4]

/-- Digest of an `Output` (`Output::digest`): the host SHA-256 `H` applied to
the sequentially appended buffer `TAG_DIGEST ‖ journal ‖ assumptions ‖ 02 00`. -/
def Output.digest (H : Bytes → Bytes) (o : Output) : Bytes :=
  let data : Bytes := []
  let data := data ++ Output.TAG_DIGEST
  let data := data ++ o.journal_digest
  let data := data ++ o.assumptions_digest
  let data := data ++ [0x02, 0x00]
  H data

/-- Pre-computed SHA-256("risc0.ReceiptClaim") tag bytes, copied from
`ReceiptClaim::TAG_DIGEST` in `interface/src/types.rs`. -/
def ReceiptClaim.TAG_DIGEST : Bytes :=
  [0xcb, 0x1f, 0xef, 0xcd, 0x1f, 0x2d, 0x9a, 0x64, 0x97, 0x5c, 0xbb, 0xbf, 0x6e, 0x16, 0x1e,
   0x29, 0x14, 0x43, 0x4b, 0x0c, 0xbb, 0x99, 0x60, 0xb8, 0x4d, 0xf5, 0xd7, 0x17, 0xe8, 0x6b,
   0x48, 0xaf]

/-- Fixed post-state digest bytes for a halted execution, copied from
`ReceiptClaim::POST_STATE_DIGEST_HALTED` in `interface/src/types.rs`. -/
def ReceiptClaim.POST_STATE_DIGEST_HALTED : Bytes :=
  [0xa3, 0xac, 0xc2, 0x71, 0x17, 0x41, 0x89, 0x96, 0x34, 0x0b, 0x84, 0xe5, 0xa9, 0x0f, 0x3e,
   0xf4, 0xc4, 0x9d, 0x22, 0xc7, 0x9e, 0x44, 0xaa, 0xd8, 0x22, 0xec, 0x9c, 0x31, 0x3e, 0x1e,
   0xb8, 0xe2]

/-- Standard claim factory (`ReceiptClaim::new`): halted execution, zero
input, zero user exit code, unconditional output. -/
def ReceiptClaim.new (H : Bytes → Bytes) (image_id journal_digest : Bytes) : ReceiptClaim :=
  let output : Output :=
    { journal_digest := journal_digest
      assumptions_digest := List.replicate 32 0 }
  { pre_state_digest := image_id
    post_state_digest := ReceiptClaim.POST_STATE_DIGEST_HALTED
    exit_code := { system := .Halted, user := List.replicate 8 0 }
    input := List.replicate 32 0
    output := output.digest H }

/-- Digest of a `ReceiptClaim` (`ReceiptClaim::digest`): the host SHA-256 `H`
applied to the sequentially appended buffer.  The system exit code is written
as `[value, 0, 0, 0]` and the user exit code contributes only its byte at
index 3, mirroring `(code << 24).to_be_bytes()` in the source. -/
def ReceiptClaim.digest (H : Bytes → Bytes) (c : ReceiptClaim) : Bytes :=
  let data : Bytes := []
  let data := data ++ ReceiptClaim.TAG_DIGEST
  let data := data ++ c.input
  let data := data ++ c.pre_state_digest
  let data := data ++ c.post_state_digest
  let data := data ++ c.output
  let data := data ++ [c.exit_code.system.toByte, 0, 0, 0]
  let data := data ++ [c.exit_code.user.getD 3 0, 0, 0, 0]
  let data := data ++ [0x04, 0x00]
  H data

/-- Router mapping entry (`VerifierEntry` in `interface/src/types.rs`);
addresses are abstracted as naturals. -/
inductive VerifierEntry where
  | Active (addr : Nat)
  | Tombstone
deriving DecidableEq, Repr

/-- Selectors are the 4-byte seal prefixes (`BytesN<4>` in the source). -/
abbrev Selector := Bytes

/-- Persistent storage of the router: the per-selector entry of
`DataKey::Verifier(selector)`, `none` when the key was never set. -/
abbrev RouterStore := Selector → Option VerifierEntry

/-- Router `add_verifier` (`risc0-router/src/lib.rs`): reads the entry for
the selector, rejects tombstoned or active entries, otherwise stores
`Active(verifier)`.  Returns the result together with the updated storage. -/
def add_verifier (st : RouterStore) (selector : Selector) (verifier : Nat) :
    Except VerifierError Unit × RouterStore :=
  match st selector with
  | some .Tombstone => (.error .SelectorRemoved, st)
  | some (.Active _) => (.error .SelectorInUse, st)
  | none => (.ok (), fun s => if s = selector then some (.Active verifier) else st s)

/-- Router `remove_verifier` (`risc0-router/src/lib.rs`): errors when the
entry was never set, otherwise stores `Tombstone`. -/
def remove_verifier (st : RouterStore) (selector : Selector) :
    Except VerifierError Unit × RouterStore :=
  match st selector with
  | none => (.error .SelectorUnknown, st)
  | some _ => (.ok (), fun s => if s = selector then some .Tombstone else st s)

/-- Router `get_verifier`: reads the entry (one storage access, which also
refreshes its TTL) and classifies it.  The second component is the trace of
storage keys read during the call. -/
def get_verifier (st : RouterStore) (selector : Selector) :
    Except VerifierError Nat × List Selector :=
  (match st selector with
    | some .Tombstone => .error .SelectorRemoved
    | some (.Active a) => .ok a
    | none => .error .SelectorUnknown,
   [selector])

/-- `selector_from_seal` (`risc0-router/src/lib.rs`): the first 4 bytes of a
seal of length at least 4, `MalformedSeal` otherwise.  This is a pure check
that touches no storage. -/
def selector_from_seal (sealBytes : Bytes) : Except VerifierError Selector :=
  if sealBytes.length < 4 then .error .MalformedSeal
  else .ok (sealBytes.take 4)

/-- Router `get_verifier_from_seal`: selector extraction, then lookup.  The
second component is the trace of storage keys read. -/
def get_verifier_from_seal (st : RouterStore) (sealBytes : Bytes) :
    Except VerifierError Nat × List Selector :=
  match selector_from_seal sealBytes with
  | .error e => (.error e, [])
  | .ok sel => get_verifier st sel

/-- Router `verify`: selector extraction, lookup, then dispatch to the
resolved verifier contract (abstracted as the function `dispatch`).  The
second component is the trace of storage keys read before and during the
call. -/
def router_verify (st : RouterStore)
    (dispatch : Nat → Bytes → Bytes → Bytes → Except VerifierError Unit)
    (sealBytes image_id journal : Bytes) :
    Except VerifierError Unit × List Selector :=
  match selector_from_seal sealBytes with
  | .error e => (.error e, [])
  | .ok sel =>
    match get_verifier st sel with
    | (.error e, tr) => (.error e, tr)
    | (.ok v, tr) => (dispatch v sealBytes image_id journal, tr)

/-- Router `verify_integrity`: like `router_verify` but the selector comes
from the receipt's seal. -/
def router_verify_integrity (st : RouterStore)
    (dispatch : Nat → Receipt → Except VerifierError Unit)
    (receipt : Receipt) :
    Except VerifierError Unit × List Selector :=
  match selector_from_seal receipt.«seal» with
  | .error e => (.error e, [])
  | .ok sel =>
    match get_verifier st sel with
    | (.error e, tr) => (.error e, tr)
    | (.ok v, tr) => (dispatch v receipt, tr)

/-- BN254 base field modulus, for stating the out-of-range property of seal
coordinates. -/
def bn254BaseFieldModulus : Nat :=
  21888242871839275222246405745257275088696311157297823662689037894645226208583

/-- Affine BN254 G1 point as held by Soroban's `Bn254G1Affine`: a plain
wrapper around 64 bytes laid out `x ‖ y`, two 32-byte big-endian field
elements.  Construction performs no validation (the host validates points
only when a curve operation consumes them). -/
structure G1Affine where
  x : Bytes
  y : Bytes
deriving DecidableEq, Repr

/-- `Bn254G1Affine::from_bytes` / `from_array`: split the 64 bytes into the
x and y coordinates.  Infallible: no range or on-curve check. -/
def G1Affine.from_bytes (b : Bytes) : G1Affine :=
  { x := b.take 32, y := (b.drop 32).take 32 }

/-- Affine BN254 G2 point as held by Soroban's `Bn254G2Affine`: 128 bytes
laid out `x0 ‖ x1 ‖ y0 ‖ y1`, four 32-byte big-endian field elements. -/
structure G2Affine where
  x0 : Bytes
  x1 : Bytes
  y0 : Bytes
  y1 : Bytes
deriving DecidableEq, Repr

/-- `Bn254G2Affine::from_bytes`: split the 128 bytes into the four
coordinates.  Infallible: no range or on-curve check. -/
def G2Affine.from_bytes (b : Bytes) : G2Affine :=
  { x0 := b.take 32
    x1 := (b.drop 32).take 32
    y0 := (b.drop 64).take 32
    y1 := (b.drop 96).take 32 }

/-- Groth16 proof points (`Groth16Proof` in `groth16-verifier/src/types.rs`). -/
structure Groth16Proof where
  a : G1Affine
  b : G2Affine
  c : G1Affine
deriving DecidableEq, Repr

/-- Selector plus proof (`Groth16Seal` in `groth16-verifier/src/types.rs`). -/
structure Groth16Seal where
  selector : Bytes
  proof : Groth16Proof
deriving DecidableEq, Repr

/-- `TryFrom<Bytes> for Groth16Proof`: exactly `PROOF_SIZE = 256` bytes
(G1 ‖ G2 ‖ G1), otherwise `MalformedSeal`.  The three slices are handed to
the affine constructors unvalidated. -/
def Groth16Proof.tryFrom (value : Bytes) : Except VerifierError Groth16Proof :=
  if value.length ≠ 256 then .error .MalformedSeal
  else
    .ok
      { a := G1Affine.from_bytes (value.take 64)
        b := G2Affine.from_bytes ((value.drop 64).take 128)
        c := G1Affine.from_bytes (value.drop 192) }

/-- `TryFrom<Bytes> for Groth16Seal`: exactly `SEAL_SIZE = 260` bytes,
otherwise `MalformedSeal`; the first 4 bytes are the selector and the rest
is parsed as a `Groth16Proof`. -/
def Groth16Seal.tryFrom (value : Bytes) : Except VerifierError Groth16Seal :=
  if value.length ≠ 260 then .error .MalformedSeal
  else
    match Groth16Proof.tryFrom (value.drop 4) with
    | .error e => .error e
    | .ok proof => .ok { selector := value.take 4, proof := proof }

/-- Truth value of a successful parse, used to state that the codec accepts
an input. -/
def Groth16Seal.parses (value : Bytes) : Bool :=
  match Groth16Seal.tryFrom value with
  | .ok _ => true
  | .error _ => false

/-- Mock verifier `read_selector` (`mock-verifier/src/lib.rs`): the stored
selector bytes, or `InvalidSelector` when the storage entry is missing. -/
def read_selector (st : Option Bytes) : Except VerifierError Bytes :=
  match st with
  | none => .error .InvalidSelector
  | some s => .ok s

/-- Mock verifier `mock_prove_claim`: a receipt whose seal is the stored
selector followed by the claim digest. -/
def mock_prove_claim (st : Option Bytes) (claim_digest : Bytes) :
    Except VerifierError Receipt :=
  match read_selector st with
  | .error e => .error e
  | .ok selector => .ok { «seal» := selector ++ claim_digest, claim_digest := claim_digest }

/-- Mock verifier `mock_prove`: builds the standard claim for the image id
and journal digest and hands its digest to `mock_prove_claim`.  `H` is the
host SHA-256. -/
def mock_prove (H : Bytes → Bytes) (st : Option Bytes) (image_id journal_digest : Bytes) :
    Except VerifierError Receipt :=
  mock_prove_claim st ((ReceiptClaim.new H image_id journal_digest).digest H)

/-- Mock verifier `verify_integrity`: length check, stored-selector
comparison on the first 4 bytes, then keccak256 equality of the seal body
and the claim digest.  `K` is the host keccak256. -/
def mock_verify_integrity (K : Bytes → Bytes) (st : Option Bytes) (receipt : Receipt) :
    Except VerifierError Unit :=
  if receipt.«seal».length < 4 then .error .MalformedSeal
  else
    match read_selector st with
    | .error e => .error e
    | .ok expected =>
      if receipt.«seal».take 4 ≠ expected then .error .InvalidSelector
      else if K (receipt.«seal».drop 4) ≠ K receipt.claim_digest then .error .InvalidProof
      else .ok ()

/-- Mock verifier `verify`: builds the standard claim from the inputs and
defers to `verify_integrity` with its digest. -/
def mock_verify (H K : Bytes → Bytes) (st : Option Bytes)
    (sealBytes image_id journal : Bytes) : Except VerifierError Unit :=
  mock_verify_integrity K st
    { «seal» := sealBytes
      claim_digest := (ReceiptClaim.new H image_id journal).digest H }

/-- Error codes of the game contract (`Error` in `lane-racer/src/lib.rs`). -/
inductive LaneError where
  | NotInitialized
  | SessionExists
  | SessionNotFound
  | NotAuthorized
  | InvalidProof
deriving DecidableEq, Repr

/-- Game session record (`GameSession` in `lane-racer/src/lib.rs`);
addresses are abstracted as naturals. -/
structure GameSession where
  session_id : Nat
  player : Nat
  score : Nat
  active : Bool
deriving DecidableEq, Repr

/-- Leaderboard row (`ScoreEntry` in `lane-racer/src/lib.rs`). -/
structure ScoreEntry where
  player : Nat
  score : Nat
deriving DecidableEq, Repr

/-- Submitted proof argument (`ZKProof` in `lane-racer/src/lib.rs`). -/
structure ZKProof where
  «seal» : Bytes
  journal : Bytes
deriving DecidableEq, Repr

/-- Instance storage of the game contract that `submit_score` touches:
the per-id `GameSession` entries, the leaderboard vector, and the stored
game-hub address. -/
structure LaneState where
  sessions : Nat → Option GameSession
  leaderboard : List ScoreEntry
  game_hub : Option Nat

/-- `LaneRacerContract::submit_score`: looks up the session, checks the
player, reads the game-hub address and invokes its `end_game` (a
cross-contract call with no effect on this contract's storage, modelled as
a no-op), then unconditionally records the score in the session and appends
it to the leaderboard.  The `_proof: ZKProof` argument is never examined by
the source, and correspondingly does not occur in the body. -/
def submit_score (st : LaneState) (session_id player score : Nat) (_proof : ZKProof) :
    Except LaneError LaneState :=
  match st.sessions session_id with
  | none => .error .SessionNotFound
  | some session =>
    if session.player ≠ player then .error .NotAuthorized
    else
      match st.game_hub with
      | none => .error .NotInitialized
      | some _ =>
        .ok
          { st with
            sessions := fun i =>
              if i = session_id then some { session with score := score, active := false }
              else st.sessions i
            leaderboard := st.leaderboard ++ [{ player := player, score := score }] }

/-- C1: `ReceiptClaim.digest` is the host SHA-256 of exactly
`TAG_CLAIM ‖ input ‖ pre_state_digest ‖ post_state_digest ‖ output ‖
[system_code,0,0,0] ‖ [user_byte3,0,0,0] ‖ 0x04 0x00`, where the compiled-in
tag constant reads `0xcb1fefcd…48af` as a 32-byte big-endian value, the
system code is 0/1/2 for Halted/Paused/SystemSplit, and the user exit code
enters only through its byte at index 3: for every replacement user field
`u`, the digest is the hash of the same formula with `u.getD 3 0`, so no
other byte of the user exit code affects the digest. -/
theorem receipt_claim_digest_layout (H : Bytes → Bytes) (c : ReceiptClaim) :
    c.digest H =
      H (ReceiptClaim.TAG_DIGEST ++ c.input ++ c.pre_state_digest ++ c.post_state_digest
         ++ c.output ++ [c.exit_code.system.toByte, 0, 0, 0]
         ++ [c.exit_code.user.getD 3 0, 0, 0, 0] ++ [0x04, 0x00])
    ∧ beBytesToNat ReceiptClaim.TAG_DIGEST =
        0xcb1fefcd1f2d9a64975cbbbf6e161e2914434b0cbb9960b84df5d717e86b48af
    ∧ ReceiptClaim.TAG_DIGEST.length = 32
    ∧ SystemExitCode.toByte .Halted = 0
    ∧ SystemExitCode.toByte .Paused = 1
    ∧ SystemExitCode.toByte .SystemSplit = 2
    ∧ (∀ u : Bytes,
        ReceiptClaim.digest H { c with exit_code := { system := c.exit_code.system, user := u } } =
          H (ReceiptClaim.TAG_DIGEST ++ c.input ++ c.pre_state_digest ++ c.post_state_digest
             ++ c.output ++ [c.exit_code.system.toByte, 0, 0, 0]
             ++ [u.getD 3 0, 0, 0, 0] ++ [0x04, 0x00])) := by
  refine ⟨?_, by decide, by decide, rfl, rfl, rfl, fun u => ?_⟩
  · simp [ReceiptClaim.digest, List.append_assoc]
  · simp [ReceiptClaim.digest, List.append_assoc]

/-- C2: `ReceiptClaim.new` fills the halted-execution defaults: the image id
as pre-state, the fixed halted post-state constant `0xa3acc2…e2`, zero input,
exit code `(Halted, 0⁽⁸⁾)`, and as output the host SHA-256 of
`TAG_OUTPUT ‖ journal_digest ‖ 0⁽³²⁾ ‖ 0x02 0x00` with the compiled-in
output tag `0x77eafeb3…59d4` and an all-zero assumptions digest. -/
theorem receipt_claim_new_fields (H : Bytes → Bytes) (image_id journal_digest : Bytes) :
    (ReceiptClaim.new H image_id journal_digest).pre_state_digest = image_id
    ∧ beBytesToNat (ReceiptClaim.new H image_id journal_digest).post_state_digest =
        0xa3acc27117418996340b84e5a90f3ef4c49d22c79e44aad822ec9c313e1eb8e2
    ∧ (ReceiptClaim.new H image_id journal_digest).post_state_digest.length = 32
    ∧ (ReceiptClaim.new H image_id journal_digest).input = List.replicate 32 0
    ∧ (ReceiptClaim.new H image_id journal_digest).exit_code.system = .Halted
    ∧ (ReceiptClaim.new H image_id journal_digest).exit_code.user = List.replicate 8 0
    ∧ (ReceiptClaim.new H image_id journal_digest).output =
        H (Output.TAG_DIGEST ++ journal_digest ++ List.replicate 32 0 ++ [0x02, 0x00])
    ∧ beBytesToNat Output.TAG_DIGEST =
        0x77eafeb366a78b47747de0d7bb176284085ff5564887009a5be63da32d3559d4
    ∧ Output.TAG_DIGEST.length = 32 := by
  refine ⟨rfl, ?_, ?_, rfl, rfl, rfl, ?_, by decide, by decide⟩
  · show beBytesToNat ReceiptClaim.POST_STATE_DIGEST_HALTED = _
    decide
  · show ReceiptClaim.POST_STATE_DIGEST_HALTED.length = 32
    decide
  · simp [ReceiptClaim.new, Output.digest, List.append_assoc]

/-- C3 counterexample: the claim says that from `Tombstone` the only
admitted operation outcome is `add_verifier` erroring with
`SelectorRemoved`; but on a tombstoned entry `remove_verifier` is also
admitted — it returns `Ok` (and the entry stays `Tombstone`). -/
theorem remove_on_tombstone_succeeds_cex :
    (remove_verifier (fun _ => some .Tombstone) [1, 2, 3, 4]).1 = .ok ()
    ∧ (remove_verifier (fun _ => some .Tombstone) [1, 2, 3, 4]).2 [1, 2, 3, 4] =
        some .Tombstone := by
  exact ⟨rfl, by simp [remove_verifier]⟩

/-- C3 (amended): per-selector registry transitions.  From unset,
`add_verifier` stores `Active(addr)` and `remove_verifier` errors with
`SelectorUnknown`; from `Active`, `add_verifier` errors with `SelectorInUse`
leaving the store unchanged and `remove_verifier` tombstones the entry; from
`Tombstone`, `add_verifier` errors with `SelectorRemoved` leaving the store
unchanged while `remove_verifier` returns `Ok` and leaves the entry
`Tombstone`.  No operation moves an entry out of `Tombstone` and no
operation rebinds an `Active` entry to a different address. -/
theorem router_registry_transitions (st : RouterStore) (sel : Selector) (v : Nat) :
    (st sel = none →
      (add_verifier st sel v).1 = .ok ()
      ∧ (add_verifier st sel v).2 sel = some (.Active v)
      ∧ remove_verifier st sel = (.error .SelectorUnknown, st))
    ∧ (∀ a, st sel = some (.Active a) →
      add_verifier st sel v = (.error .SelectorInUse, st)
      ∧ (remove_verifier st sel).1 = .ok ()
      ∧ (remove_verifier st sel).2 sel = some .Tombstone)
    ∧ (st sel = some .Tombstone →
      add_verifier st sel v = (.error .SelectorRemoved, st)
      ∧ (add_verifier st sel v).2 sel = some .Tombstone
      ∧ (remove_verifier st sel).1 = .ok ()
      ∧ (remove_verifier st sel).2 sel = some .Tombstone)
    ∧ (∀ a b, st sel = some (.Active a) →
      (add_verifier st sel v).2 sel = some (.Active b) → b = a) := by
  refine ⟨fun h => ?_, fun a h => ?_, fun h => ?_, fun a b h h2 => ?_⟩
  · simp [add_verifier, remove_verifier, h]
  · simp [add_verifier, remove_verifier, h]
  · simp [add_verifier, remove_verifier, h]
  · simp [add_verifier, h] at h2
    exact h2.symm

/-- Witness for the amended C3 theorem, at an unset selector. -/
theorem router_registry_transitions_witness :
    (add_verifier (fun _ => none) [0, 0, 0, 1] 5).1 = .ok ()
    ∧ (add_verifier (fun _ => none) [0, 0, 0, 1] 5).2 [0, 0, 0, 1] = some (.Active 5) := by
  have h := (router_registry_transitions (fun _ => none) [0, 0, 0, 1] 5).1 rfl
  exact ⟨h.1, h.2.1⟩

/-- C10: `remove_verifier` on a tombstoned selector returns `Ok` and leaves
the whole store (in particular the entry) unchanged at `Tombstone`; the call
errors with `SelectorUnknown` exactly when the entry is unset; and it
succeeds for every set entry, `Active` or `Tombstone`. -/
theorem remove_verifier_on_set_entries (st : RouterStore) (sel : Selector) :
    (st sel = some .Tombstone →
      (remove_verifier st sel).1 = .ok ()
      ∧ ∀ s, (remove_verifier st sel).2 s = st s)
    ∧ ((remove_verifier st sel).1 = .error .SelectorUnknown ↔ st sel = none)
    ∧ (∀ e, st sel = some e → (remove_verifier st sel).1 = .ok ()) := by
  refine ⟨fun h => ⟨by simp [remove_verifier, h], fun s => ?_⟩, ?_, fun e h => ?_⟩
  · by_cases hs : s = sel
    · subst hs
      simp [remove_verifier, h]
    · simp [remove_verifier, h, hs]
  · cases h : st sel with
    | none => simp [remove_verifier, h]
    | some e => cases e <;> simp [remove_verifier, h]
  · simp [remove_verifier, h]

/-- Witness for the C10 theorem, at a tombstoned selector. -/
theorem remove_verifier_on_set_entries_witness :
    (remove_verifier (fun _ => some .Tombstone) [7, 7, 7, 7]).1 = .ok () :=
  ((remove_verifier_on_set_entries (fun _ => some .Tombstone) [7, 7, 7, 7]).1 rfl).1

/-- Helper: parsing any 260-byte input succeeds and decodes the selector and
the eight 32-byte coordinates from the fixed offsets. -/
lemma groth16_tryFrom_of_length (b : Bytes) (hb : b.length = 260) :
    Groth16Seal.tryFrom b = .ok
      { selector := b.take 4
        proof :=
          { a := { x := (b.drop 4).take 32, y := (b.drop 36).take 32 }
            b := { x0 := (b.drop 68).take 32, x1 := (b.drop 100).take 32
                   y0 := (b.drop 132).take 32, y1 := (b.drop 164).take 32 }
            c := { x := (b.drop 196).take 32, y := (b.drop 228).take 32 } } } := by
  have h4 : (b.drop 4).length = 256 := by simp [hb]
  simp [Groth16Seal.tryFrom, Groth16Proof.tryFrom, hb, h4, G1Affine.from_bytes,
        G2Affine.from_bytes, List.take_take, List.drop_take, List.drop_drop]

/-- C4: `TryFrom<Bytes> for Groth16Seal` rejects every input whose length is
not 260 with `MalformedSeal`, and on every 260-byte input yields the seal
whose selector is bytes 0..4 and whose proof points are decoded from the
fixed offsets: A from 4..68 (x 4..36, y 36..68), B from 68..196
(x0 68..100, x1 100..132, y0 132..164, y1 164..196), C from 196..260
(x 196..228, y 228..260), each coordinate 32 bytes. -/
theorem groth16_seal_parse (b : Bytes) :
    (b.length ≠ 260 → Groth16Seal.tryFrom b = .error .MalformedSeal)
    ∧ (b.length = 260 → Groth16Seal.tryFrom b = .ok
        { selector := b.take 4
          proof :=
            { a := { x := (b.drop 4).take 32, y := (b.drop 36).take 32 }
              b := { x0 := (b.drop 68).take 32, x1 := (b.drop 100).take 32
                     y0 := (b.drop 132).take 32, y1 := (b.drop 164).take 32 }
              c := { x := (b.drop 196).take 32, y := (b.drop 228).take 32 } } }) := by
  constructor
  · intro h
    simp [Groth16Seal.tryFrom, h]
  · exact groth16_tryFrom_of_length b

/-- Witness for the C4 theorem on a concrete 260-byte input. -/
theorem groth16_seal_parse_witness :
    (List.range 260).length = 260
    ∧ Groth16Seal.tryFrom (List.range 260) = .ok
        { selector := (List.range 260).take 4
          proof :=
            { a := { x := ((List.range 260).drop 4).take 32
                     y := ((List.range 260).drop 36).take 32 }
              b := { x0 := ((List.range 260).drop 68).take 32
                     x1 := ((List.range 260).drop 100).take 32
                     y0 := ((List.range 260).drop 132).take 32
                     y1 := ((List.range 260).drop 164).take 32 }
              c := { x := ((List.range 260).drop 196).take 32
                     y := ((List.range 260).drop 228).take 32 } } } :=
  ⟨by simp, (groth16_seal_parse (List.range 260)).2 (by simp)⟩

/-- C8 counterexample: the all-0xFF 260-byte input has its A_x coordinate
(and every other coordinate) out of range for the BN254 base field, yet the
codec accepts it: `TryFrom` checks only the length, and `from_bytes` on the
affine types performs no range or on-curve validation, so rejection of
invalid points is deferred to the host curve operations instead of
happening at parse time. -/
theorem groth16_parse_defers_point_checks_cex :
    (List.replicate 260 255 : Bytes).length = 260
    ∧ bn254BaseFieldModulus ≤ beBytesToNat (((List.replicate 260 255 : Bytes).drop 4).take 32)
    ∧ Groth16Seal.parses (List.replicate 260 255) = true := by
  exact ⟨by decide, by decide, by decide⟩

/-- C8 (amended): the seal codec validates only the length at parse time:
every 260-byte input parses successfully, whatever bytes its coordinates
hold; out-of-range or non-curve points are not rejected by `TryFrom`. -/
theorem groth16_parse_checks_only_length (b : Bytes) (hb : b.length = 260) :
    ∃ s, Groth16Seal.tryFrom b = .ok s :=
  ⟨_, groth16_tryFrom_of_length b hb⟩

/-- Witness for the amended C8 theorem on the all-zero 260-byte input. -/
theorem groth16_parse_checks_only_length_witness :
    (List.replicate 260 0 : Bytes).length = 260
    ∧ ∃ s, Groth16Seal.tryFrom (List.replicate 260 0) = .ok s :=
  ⟨by decide, groth16_parse_checks_only_length (List.replicate 260 0) (by decide)⟩

/-- C5: for a mock verifier whose selector storage holds `sel`,
`verify_integrity` returns `MalformedSeal` iff the seal is shorter than 4
bytes; otherwise `InvalidSelector` iff the first 4 bytes differ from `sel`;
otherwise `InvalidProof` iff the keccak256 of `seal[4..]` differs from the
keccak256 of the claim digest; otherwise `Ok`. -/
theorem mock_verify_integrity_cases (K : Bytes → Bytes) (sel : Bytes) (receipt : Receipt) :
    (mock_verify_integrity K (some sel) receipt = .error .MalformedSeal ↔
      receipt.«seal».length < 4)
    ∧ (mock_verify_integrity K (some sel) receipt = .error .InvalidSelector ↔
      4 ≤ receipt.«seal».length ∧ receipt.«seal».take 4 ≠ sel)
    ∧ (mock_verify_integrity K (some sel) receipt = .error .InvalidProof ↔
      4 ≤ receipt.«seal».length ∧ receipt.«seal».take 4 = sel
      ∧ K (receipt.«seal».drop 4) ≠ K receipt.claim_digest)
    ∧ (mock_verify_integrity K (some sel) receipt = .ok () ↔
      4 ≤ receipt.«seal».length ∧ receipt.«seal».take 4 = sel
      ∧ K (receipt.«seal».drop 4) = K receipt.claim_digest) := by
  by_cases h1 : receipt.«seal».length < 4
  · have h1' : ¬ 4 ≤ receipt.«seal».length := by omega
    simp [mock_verify_integrity, read_selector, h1, h1']
  · have h1' : 4 ≤ receipt.«seal».length := by omega
    by_cases h2 : receipt.«seal».take 4 = sel
    · by_cases h3 : K (receipt.«seal».drop 4) = K receipt.claim_digest
      · simp [mock_verify_integrity, read_selector, h1, h1', h2, h3]
      · simp [mock_verify_integrity, read_selector, h1, h1', h2, h3]
    · simp [mock_verify_integrity, read_selector, h1, h1', h2]

/-- C6: round trip through the mock verifier: with a configured 4-byte
selector, `mock_prove` returns a receipt whose claim digest is
`ReceiptClaim.new(image_id, journal_digest).digest()`, whose seal is the
36-byte concatenation of the selector and that digest, and
`verify_integrity` accepts the receipt. -/
theorem mock_prove_roundtrip (H K : Bytes → Bytes) (sel image_id journal_digest : Bytes)
    (hH : ∀ l, (H l).length = 32) (hsel : sel.length = 4) :
    ∃ receipt,
      mock_prove H (some sel) image_id journal_digest = .ok receipt
      ∧ receipt.claim_digest = (ReceiptClaim.new H image_id journal_digest).digest H
      ∧ receipt.«seal» = sel ++ receipt.claim_digest
      ∧ receipt.«seal».length = 36
      ∧ receipt.«seal».take 4 = sel
      ∧ mock_verify_integrity K (some sel) receipt = .ok () := by
  have hdl : ((ReceiptClaim.new H image_id journal_digest).digest H).length = 32 := hH _
  refine ⟨{ «seal» := sel ++ (ReceiptClaim.new H image_id journal_digest).digest H
            claim_digest := (ReceiptClaim.new H image_id journal_digest).digest H },
          rfl, rfl, rfl, ?_, ?_, ?_⟩
  · simp [hsel, hdl]
  · exact List.take_left' hsel
  · have hlen : (sel ++ (ReceiptClaim.new H image_id journal_digest).digest H).length = 36 := by
      simp [hsel, hdl]
    have htake : (sel ++ (ReceiptClaim.new H image_id journal_digest).digest H).take 4 = sel :=
      List.take_left' hsel
    have hdrop :
        (sel ++ (ReceiptClaim.new H image_id journal_digest).digest H).drop 4 =
          (ReceiptClaim.new H image_id journal_digest).digest H :=
      List.drop_left' hsel
    simp [mock_verify_integrity, read_selector, hlen, htake, hdrop]

/-- Witness for the C6 theorem at selector `11 22 33 44`. -/
theorem mock_prove_roundtrip_witness :
    (∀ l : Bytes, ((fun _ : Bytes => (List.replicate 32 0 : Bytes)) l).length = 32)
    ∧ ([0x11, 0x22, 0x33, 0x44] : Bytes).length = 4
    ∧ ∃ receipt,
        mock_prove (fun _ : Bytes => (List.replicate 32 0 : Bytes)) (some [0x11, 0x22, 0x33, 0x44])
            (List.replicate 32 1) (List.replicate 32 2) = .ok receipt
        ∧ receipt.claim_digest =
            (ReceiptClaim.new (fun _ : Bytes => (List.replicate 32 0 : Bytes))
                (List.replicate 32 1) (List.replicate 32 2)).digest
              (fun _ : Bytes => (List.replicate 32 0 : Bytes))
        ∧ receipt.«seal» = [0x11, 0x22, 0x33, 0x44] ++ receipt.claim_digest
        ∧ receipt.«seal».length = 36
        ∧ receipt.«seal».take 4 = [0x11, 0x22, 0x33, 0x44]
        ∧ mock_verify_integrity (fun l : Bytes => l) (some [0x11, 0x22, 0x33, 0x44]) receipt =
            .ok () :=
  ⟨fun _ => by simp, by decide,
   mock_prove_roundtrip (fun _ : Bytes => (List.replicate 32 0 : Bytes)) (fun l : Bytes => l)
     [0x11, 0x22, 0x33, 0x44] (List.replicate 32 1) (List.replicate 32 2)
     (fun _ => by simp) (by decide)⟩

/-- C7: for every seal shorter than 4 bytes the router's `verify`,
`verify_integrity` and `get_verifier_from_seal` return `MalformedSeal` with
an empty storage-access trace: no registry entry is read or written (hence
no TTL is extended) before the rejection. -/
theorem router_short_seal_rejects_without_storage (st : RouterStore)
    (dv : Nat → Bytes → Bytes → Bytes → Except VerifierError Unit)
    (di : Nat → Receipt → Except VerifierError Unit)
    (sealBytes image_id journal cd : Bytes) (hs : sealBytes.length < 4) :
    router_verify st dv sealBytes image_id journal = (.error .MalformedSeal, [])
    ∧ router_verify_integrity st di { «seal» := sealBytes, claim_digest := cd } =
        (.error .MalformedSeal, [])
    ∧ get_verifier_from_seal st sealBytes = (.error .MalformedSeal, []) := by
  refine ⟨?_, ?_, ?_⟩ <;>
    simp [router_verify, router_verify_integrity, get_verifier_from_seal,
          selector_from_seal, hs]

/-- Witness for the C7 theorem on a 2-byte seal. -/
theorem router_short_seal_rejects_without_storage_witness :
    ([0, 1] : Bytes).length < 4
    ∧ router_verify (fun _ => none) (fun _ _ _ _ => .ok ()) [0, 1] [] [] =
        (.error .MalformedSeal, [])
    ∧ router_verify_integrity (fun _ => none) (fun _ _ => .ok ())
        { «seal» := [0, 1], claim_digest := [] } = (.error .MalformedSeal, [])
    ∧ get_verifier_from_seal (fun _ => none) [0, 1] = (.error .MalformedSeal, []) :=
  ⟨by decide,
   router_short_seal_rejects_without_storage (fun _ => none) (fun _ _ _ _ => .ok ())
     (fun _ _ => .ok ()) [0, 1] [] [] [] (by decide)⟩

/-- C9 (code bug): `submit_score` ignores its `ZKProof` argument entirely —
the result is identical for any two proofs, so no verification outcome can
influence it — and on a state holding a matching active session it returns
`Ok`, overwrites the session score and appends to the leaderboard although
no proof verification was performed. -/
theorem submit_score_records_without_verification :
    (∀ (st : LaneState) (session_id player score : Nat) (p p' : ZKProof),
      submit_score st session_id player score p = submit_score st session_id player score p')
    ∧ ∃ st' : LaneState,
        submit_score
          { sessions := fun i =>
              if i = 1 then some { session_id := 1, player := 7, score := 0, active := true }
              else none
            leaderboard := []
            game_hub := some 9 }
          1 7 999 { «seal» := List.replicate 64 0, journal := List.replicate 32 0 } = .ok st'
        ∧ st'.leaderboard = [{ player := 7, score := 999 }]
        ∧ st'.sessions 1 = some { session_id := 1, player := 7, score := 999, active := false } := by
  constructor
  · exact fun st sid p sc pf pf' => rfl
  · refine ⟨_, rfl, ?_, ?_⟩
    · simp [submit_score]
    · simp [submit_score]

end LaneRacer
